import Mathlib

/-!
Verification of the makanika repair-shop backend (job lifecycle, role-scoped
queries, customer provisioning, inventory stock adjustment).

The definitions below are a shallow embedding of the Python source:
`apps/jobs/services.py`, `apps/jobs/models.py`, `apps/jobs/schemas.py`,
`apps/spare_parts/services.py`, `apps/spare_parts/models.py`.
The database session is embedded as explicit state (lists of rows), SQL
queries as list filters, and `HTTPException` raises as `Except` errors.
Python `Optional` truthiness (`if x:` is false for `None`, `0` and `""`)
is embedded explicitly where the source relies on it.

Conventions:
* Float-valued columns (`price`, `estimated_cost`, `actual_cost`) are only
  stored and copied in this slice of the code, never computed with, so they
  are embedded as `Rat`.
* Timestamps are abstract ticks (`Nat`); `func.now()` becomes an explicit
  `now` argument.  `updated_at` is maintained by the ORM layer
  (`onupdate=datetime.utcnow`), which the spec scopes out, so the embedded
  operations leave it untouched.
* `estimated_completion` appears in the pydantic schemas but has no column
  on the `Job` model, so it is not part of the job row state.  It IS a key
  of `job_data.model_dump(exclude={'create_customer_account'})`, and the
  declarative base's constructor raises `TypeError` for any keyword that is
  not an attribute of the model, so `Job(**job_dict, ...)` in `create_job`
  always raises before anything is committed (see `jobCreateDumpKeys` and
  `jobModelAttrs`).  `JobUpdate.estimated_completion`, by contrast, is
  applied with a plain `setattr`, which sets an unmapped transient Python
  attribute without error and persists nothing, so it is omitted from the
  embedded update.
-/

namespace Makanika

/-- Job status values. Union (by string value) of the two `JobStatus`
enumerations in the source (`models.py` has five values, `schemas.py`
additionally has `CHECKED_IN`); the source compares them by string value. -/
inductive JobStatus where
  | CHECKED_IN
  | DIAGNOSING
  | REPAIRING
  | WAITING_FOR_PARTS
  | READY
  | COMPLETED
deriving DecidableEq, Repr

/-- The `.value` of a status member, as used by `get_job_stats`
(`stats_dict[status.value] = count`). -/
def JobStatus.value : JobStatus → String
  | .CHECKED_IN => "CHECKED_IN"
  | .DIAGNOSING => "DIAGNOSING"
  | .REPAIRING => "REPAIRING"
  | .WAITING_FOR_PARTS => "WAITING_FOR_PARTS"
  | .READY => "READY"
  | .COMPLETED => "COMPLETED"

/-- Modelled from the spec: the `Role` row of the Identity Store
(`apps/auth/models.py` is not under `src/`; spec section 3:
`Role: {id, name (unique), description}`). -/
structure Role where
  id : Int
  name : String
deriving DecidableEq, Repr

/-- Modelled from the spec: the user row of the Identity Store
(`apps/auth/models.py` is not under `src/`; spec section 3:
`User: {id, name, email (unique), hashed_password, role: Role}`).
Its shape is confirmed by every caller in `src/` (`user.id`,
`user.email`, `user.role.name`, ...). -/
structure UserModel where
  id : Int
  name : String
  email : String
  hashed_password : String
  role : Role
deriving DecidableEq, Repr

/-- The `Job` row (`apps/jobs/models.py`). -/
structure Job where
  id : Int
  job_number : String
  customer_name : String
  customer_phone : String
  customer_email : Option String
  vehicle_name : String
  motorcycle_numberplate : String
  problem_description : String
  diagnosis_notes : Option String
  repair_notes : Option String
  estimated_cost : Rat
  actual_cost : Rat
  status : JobStatus
  priority : Int
  created_at : Nat
  updated_at : Nat
  completed_at : Option Nat
  assigned_mechanic_id : Option Int
  created_by_id : Int
  customer_user_id : Option Int
deriving DecidableEq, Repr

/-- The database state visible to the job service: the `roles`, `users`
and `jobs` tables, each in insertion order. -/
structure DB where
  roles : List Role
  users : List UserModel
  jobs : List Job
deriving DecidableEq, Repr

/-- Python truthiness of an `Optional[int]`: `None` and `0` are falsy. -/
def optIntTruthy : Option Int → Bool
  | none => false
  | some n => n != 0

/-- Python truthiness of an `Optional[str]`: `None` and `""` are falsy. -/
def optStrTruthy : Option String → Bool
  | none => false
  | some s => s != ""

/-- Errors raised by the service layer: `HTTPException` status codes
(404 not found, 400 validation, 500 configuration for the missing role),
an unexpected lower-level storage failure, and the uncaught Python
`TypeError` that the declarative `Job` constructor raises for an invalid
keyword argument. -/
inductive ApiError where
  | notFound
  | validationFailed
  | configError
  | internalError
  | typeError
deriving DecidableEq, Repr

/-! ## Spare parts (`apps/spare_parts/models.py`, `services.py`) -/

/-- The `SparePart` row (`apps/spare_parts/models.py`). -/
structure SparePart where
  id : Int
  name : String
  description : Option String
  price : Rat
  quantity_in_stock : Int
  sku : Option String
  category : Option String
  minimum_stock_level : Int
  is_active : Bool
deriving DecidableEq, Repr

/-- The spare-parts table. -/
structure PartsDB where
  parts : List SparePart
deriving DecidableEq, Repr

/-- Embeds `SparePartStockUpdate` (`apps/spare_parts/schemas.py`). -/
structure SparePartStockUpdate where
  quantity_change : Int
  reason : Option String
deriving DecidableEq, Repr

/-- Errors of the spare-part service relevant here: 404 and the
400 "Insufficient stock" error of `update_stock`. -/
inductive PartError where
  | notFound
  | insufficientStock
deriving DecidableEq, Repr

/-- Embeds `SparePartService.get_spare_part`: first part with the given id. -/
def get_spare_part (db : PartsDB) (spare_part_id : Int) : Option SparePart :=
  db.parts.find? (fun p => p.id == spare_part_id)

/-- Replace the row with the given id by the updated row (the effect of
mutating the fetched ORM object and committing). -/
def PartsDB.replace (db : PartsDB) (p : SparePart) : PartsDB :=
  { db with parts := db.parts.map (fun x => if x.id == p.id then p else x) }

/-- Embeds `SparePartService.update_stock` (`adjustStock` in the spec):
fetch the part (404 if absent), compute `current + delta`, reject with the
insufficient-stock error if the result would be negative, otherwise store
the new quantity and commit.  On error no state is produced, i.e. the
store is unchanged. -/
def update_stock (db : PartsDB) (spare_part_id : Int)
    (stock_update : SparePartStockUpdate) : Except PartError (SparePart × PartsDB) :=
  match get_spare_part db spare_part_id with
  | none => .error .notFound
  | some p =>
    if p.quantity_in_stock + stock_update.quantity_change < 0 then
      .error .insufficientStock
    else
      .ok ({ p with quantity_in_stock :=
               p.quantity_in_stock + stock_update.quantity_change },
           db.replace { p with quantity_in_stock :=
               p.quantity_in_stock + stock_update.quantity_change })

/-- Run one `adjustStock` call against the store, keeping the store
unchanged when the call fails (the failed request commits nothing). -/
def adjustOrKeep (db : PartsDB) (call : Int × SparePartStockUpdate) : PartsDB :=
  match update_stock db call.1 call.2 with
  | .ok (_, db1) => db1
  | .error _ => db

/-! ## Job schemas (`apps/jobs/schemas.py`) -/

/-- Embeds `JobCreate` (`schemas.py`).  `estimated_completion` is a schema
field with no `Job` column; it rides along in the input and is what makes
the `Job(**job_dict, ...)` constructor raise (see header). -/
structure JobCreate where
  customer_name : String
  customer_phone : String
  customer_email : Option String
  vehicle_name : String
  motorcycle_numberplate : String
  problem_description : String
  estimated_cost : Rat
  estimated_completion : Option String := none
  priority : Int
  create_customer_account : Bool
deriving DecidableEq, Repr

/-- Embeds `JobUpdate` (`schemas.py`) under `model_dump(exclude_unset=True)`:
an outer `none` means the field was not supplied and is not written.
For the nullable columns the inner `Option` is the written value, so
`some none` is an explicit `null` update.  A supplied-`null` `status` is
not modelled (the column is conceptually non-null in this slice). -/
structure JobUpdate where
  customer_name : Option String := none
  customer_phone : Option String := none
  customer_email : Option (Option String) := none
  vehicle_name : Option String := none
  motorcycle_numberplate : Option String := none
  problem_description : Option String := none
  diagnosis_notes : Option (Option String) := none
  repair_notes : Option (Option String) := none
  estimated_cost : Option Rat := none
  actual_cost : Option Rat := none
  status : Option JobStatus := none
  priority : Option Int := none
  assigned_mechanic_id : Option (Option Int) := none
deriving DecidableEq, Repr

/-- Embeds `JobStatusUpdate` (`schemas.py`). -/
structure JobStatusUpdate where
  status : JobStatus
  notes : Option String
deriving DecidableEq, Repr

/-- Embeds `JobCostUpdate` (`schemas.py`). -/
structure JobCostUpdate where
  actual_cost : Rat
  repair_notes : Option String
deriving DecidableEq, Repr

/-- Embeds `JobAssignment` (`schemas.py`). -/
structure JobAssignment where
  assigned_mechanic_id : Int
deriving DecidableEq, Repr

/-- Embeds `CustomerCredentials` (`schemas.py`). -/
structure CustomerCredentials where
  email : String
  password : String
  job_number : String
deriving DecidableEq, Repr

/-- The dictionary built by `JobService.job_to_response`. -/
structure JobResponseR where
  id : Int
  job_number : String
  customer_name : String
  customer_phone : String
  customer_email : Option String
  vehicle_name : String
  motorcycle_numberplate : String
  problem_description : String
  diagnosis_notes : Option String
  repair_notes : Option String
  estimated_cost : Rat
  actual_cost : Rat
  status : JobStatus
  priority : Int
  assigned_mechanic_id : Option Int
  assigned_mechanic_name : Option String
  created_by_id : Int
  created_by_name : Option String
  customer_user_id : Option Int
  created_at : Nat
  updated_at : Nat
  completed_at : Option Nat
deriving DecidableEq, Repr

/-- Embeds `JobCreateResponse` (`schemas.py`). -/
structure JobCreateResponse where
  job : JobResponseR
  customer_credentials : Option CustomerCredentials
  message : String
deriving DecidableEq, Repr

/-! ## Job service helpers (`apps/jobs/services.py`) -/

/-- Embeds `db.query(UserModel).filter(UserModel.id == i).first()`. -/
def findUserById (db : DB) (i : Int) : Option UserModel :=
  db.users.find? (fun u => u.id == i)

/-- Embeds `JobService.get_job`. -/
def get_job (db : DB) (job_id : Int) : Option Job :=
  db.jobs.find? (fun j => j.id == job_id)

/-- Embeds `JobService.get_job_by_number`. -/
def get_job_by_number (db : DB) (job_number : String) : Option Job :=
  db.jobs.find? (fun j => j.job_number == job_number)

/-- Replace the job row with the given id by the updated row (the effect
of mutating the fetched ORM object and committing). -/
def DB.replaceJob (db : DB) (j : Job) : DB :=
  { db with jobs := db.jobs.map (fun x => if x.id == j.id then j else x) }

/-- Embeds `JobService.job_to_response`: project a row to the response dict,
resolving the mechanic / creator names through the relationships.
(`created_by` is a non-null foreign key, so in a consistent store the
lookup succeeds; a dangling reference yields `none` here.) -/
def job_to_response (db : DB) (j : Job) : JobResponseR :=
  { id := j.id
    job_number := j.job_number
    customer_name := j.customer_name
    customer_phone := j.customer_phone
    customer_email := j.customer_email
    vehicle_name := j.vehicle_name
    motorcycle_numberplate := j.motorcycle_numberplate
    problem_description := j.problem_description
    diagnosis_notes := j.diagnosis_notes
    repair_notes := j.repair_notes
    estimated_cost := j.estimated_cost
    actual_cost := j.actual_cost
    status := j.status
    priority := j.priority
    assigned_mechanic_id := j.assigned_mechanic_id
    assigned_mechanic_name :=
      match j.assigned_mechanic_id with
      | none => none
      | some i => (findUserById db i).map (fun u => u.name)
    created_by_id := j.created_by_id
    created_by_name := (findUserById db j.created_by_id).map (fun u => u.name)
    customer_user_id := j.customer_user_id
    created_at := j.created_at
    updated_at := j.updated_at
    completed_at := j.completed_at }

/-! ## Role-scoped query engine (`JobService.get_jobs`) -/

/-- Does the character list start with the pattern? -/
def charsStartWith : List Char → List Char → Bool
  | _, [] => true
  | [], _ :: _ => false
  | c :: cs, p :: ps => c == p && charsStartWith cs ps

/-- Does the character list contain the pattern as a contiguous run? -/
def charsHaveSub (pat : List Char) : List Char → Bool
  | [] => pat.isEmpty
  | c :: cs => charsStartWith (c :: cs) pat || charsHaveSub pat cs

/-- SQL `column.ilike(f"%{pat}%")`: case-insensitive substring match. -/
def ilike (hay pat : String) : Bool :=
  charsHaveSub pat.toLower.toList hay.toLower.toList

/-- The optional filters of `get_jobs`, combined by AND exactly as the
source chains `query.filter`.  An empty search / phone / plate string is
falsy in Python (`if search:`), so it applies no filter; a supplied
status enum member is always truthy (non-empty string values). -/
def matchesFilters (status : Option JobStatus)
    (search customer_phone numberplate : Option String) (j : Job) : Bool :=
  (match status with
   | none => true
   | some s => j.status == s) &&
  (if optStrTruthy search then
     match search with
     | none => true
     | some s =>
       ilike j.customer_name s || ilike j.job_number s ||
       ilike j.vehicle_name s || ilike j.problem_description s
   else true) &&
  (if optStrTruthy customer_phone then
     match customer_phone with
     | none => true
     | some s => ilike j.customer_phone s
   else true) &&
  (if optStrTruthy numberplate then
     match numberplate with
     | none => true
     | some s => ilike j.motorcycle_numberplate s
   else true)

/-- The role-based visibility filter of `get_jobs` (lines 115-125):
`customer` (with a truthy id) sees only jobs with their own
`customer_user_id`; `mechanic` (with a truthy id) sees jobs assigned to
them or unassigned; everyone else (admin in particular) is unrestricted. -/
def roleVisible (user_role : Option String) (user_id : Option Int) (j : Job) : Bool :=
  if user_role == some "customer" && optIntTruthy user_id then
    j.customer_user_id == user_id
  else if user_role == some "mechanic" && optIntTruthy user_id then
    j.assigned_mechanic_id == user_id || j.assigned_mechanic_id == none
  else
    true

/-- Insert a job into a list kept in descending `created_at` order. -/
def insertByCreatedDesc (j : Job) : List Job → List Job
  | [] => [j]
  | h :: t =>
    if h.created_at ≤ j.created_at then j :: h :: t
    else h :: insertByCreatedDesc j t

/-- Embeds `query.order_by(Job.created_at.desc())`: newest-created first. -/
def sortByCreatedDesc : List Job → List Job
  | [] => []
  | h :: t => insertByCreatedDesc h (sortByCreatedDesc t)

/-- Embeds `JobService.get_jobs`: apply the optional filters and the role
filter, order newest first, count before pagination, then
`offset(skip).limit(limit)` and project each row. -/
def get_jobs (db : DB) (skip limit : Nat) (status : Option JobStatus)
    (search customer_phone numberplate : Option String)
    (user_id : Option Int) (user_role : Option String) :
    List JobResponseR × Nat :=
  let filtered := db.jobs.filter (fun j =>
    matchesFilters status search customer_phone numberplate j &&
    roleVisible user_role user_id j)
  let sorted := sortByCreatedDesc filtered
  let total := sorted.length
  (((sorted.drop skip).take limit).map (job_to_response db), total)

/-! ## Job creation & customer provisioning (`create_job`) -/

/-- The environment of a `create_job` call: the stream of random digits
consumed by `secrets.choice(string.digits)`, the generated random
password, the Credential Service hash function, fresh primary keys, the
clock, and whether persisting the new user row hits an unexpected
lower-level failure (spec section 7: storage errors surface as a generic
internal error). -/
structure Env where
  digits : Nat → Fin 10
  passwordSeed : String
  hash : String → String
  freshUserId : Int
  freshJobId : Int
  now : Nat
  userPersistFails : Bool

/-- The decimal digit character drawn from `string.digits`. -/
def digitChar (d : Fin 10) : Char :=
  Char.ofNat (48 + d.val)

/-- The 6-digit random suffix of attempt `k`:
`''.join(secrets.choice(string.digits) for _ in range(6))`. -/
def randomSuffix (env : Env) (k : Nat) : String :=
  String.mk ((List.range 6).map (fun i => digitChar (env.digits (6 * k + i))))

/-- Embeds `JobService.generate_job_number`: draw `JOB-` + 6 random digits and
retry while a job with that number already exists.  The source loop is
unbounded (`while True`); it is embedded with explicit fuel, `none`
meaning the retry budget ran out before a free number was drawn. -/
def generate_job_number (env : Env) (db : DB) : Nat → Nat → Option String
  | 0, _ => none
  | fuel + 1, k =>
    let job_number := "JOB-" ++ randomSuffix env k
    if db.jobs.any (fun j => j.job_number == job_number) then
      generate_job_number env db fuel (k + 1)
    else
      some job_number

/-- Embeds `JobService.create_customer_account`: if a truthy customer email is
supplied and a user with that email exists, reuse it (no password is
returned); otherwise look up the `customer` role (500 configuration
error if absent), then mint a user with a random password — an
unexpected storage failure while persisting it surfaces as an internal
error.  On success returns the user, the plaintext password for a newly
minted account, and the store with the flushed row. -/
def create_customer_account (env : Env) (db : DB) (job : JobCreate)
    (job_number : String) : Except ApiError (UserModel × Option String × DB) :=
  let existing :=
    if optStrTruthy job.customer_email then
      db.users.find? (fun u => some u.email == job.customer_email)
    else none
  match existing with
  | some u => .ok (u, none, db)
  | none =>
    match db.roles.find? (fun r => r.name == "customer") with
    | none => .error .configError
    | some customer_role =>
      if env.userPersistFails then .error .internalError
      else
        let password := env.passwordSeed
        let email :=
          if optStrTruthy job.customer_email then job.customer_email.getD ""
          else job_number ++ "@makanika.com"
        let customer_user : UserModel :=
          { id := env.freshUserId
            name := job.customer_name
            email := email
            hashed_password := env.hash password
            role := customer_role }
        .ok (customer_user, some password, { db with users := db.users ++ [customer_user] })

/-- The job row persisted by `create_job`: the `JobCreate` fields (minus
`create_customer_account`), the generated number, the creator id, the
customer link, and the model defaults (`status=DIAGNOSING`,
`priority` comes from the input, costs / notes / timestamps defaulted). -/
def mkJob (env : Env) (job_data : JobCreate) (created_by : UserModel)
    (job_number : String) (customer_user_id : Option Int) : Job :=
  { id := env.freshJobId
    job_number := job_number
    customer_name := job_data.customer_name
    customer_phone := job_data.customer_phone
    customer_email := job_data.customer_email
    vehicle_name := job_data.vehicle_name
    motorcycle_numberplate := job_data.motorcycle_numberplate
    problem_description := job_data.problem_description
    diagnosis_notes := none
    repair_notes := none
    estimated_cost := job_data.estimated_cost
    actual_cost := 0
    status := .DIAGNOSING
    priority := job_data.priority
    created_at := env.now
    updated_at := env.now
    completed_at := none
    assigned_mechanic_id := none
    created_by_id := created_by.id
    customer_user_id := customer_user_id }

/-- Keys of `job_data.model_dump(exclude={'create_customer_account'})`:
every `JobBase` field (`schemas.py`), `estimated_completion` included. -/
def jobCreateDumpKeys : List String :=
  ["customer_name", "customer_phone", "customer_email", "vehicle_name",
   "motorcycle_numberplate", "problem_description", "estimated_cost",
   "estimated_completion", "priority"]

/-- Attribute names of the declarative `Job` model (`models.py`): its
columns and relationships.  `estimated_completion` is NOT among them. -/
def jobModelAttrs : List String :=
  ["id", "job_number", "customer_name", "customer_phone", "customer_email",
   "vehicle_name", "motorcycle_numberplate", "problem_description",
   "diagnosis_notes", "repair_notes", "estimated_cost", "actual_cost",
   "status", "priority", "created_at", "updated_at", "completed_at",
   "assigned_mechanic_id", "assigned_mechanic", "created_by_id",
   "created_by", "customer_user_id", "customer_user"]

/-- Embeds `JobService.create_job`: generate a job number; if requested and a
truthy email is present, attempt customer-account creation — catching
EVERY failure of that step (`except Exception: ... continue without
customer account`, lines 150-154); then build the row with
`Job(**job_dict, job_number=..., created_by_id=..., customer_user_id=...)`.
SQLAlchemy's declarative constructor raises `TypeError` for any keyword
that is not an attribute of the model, which is embedded as the
kwarg-containment check below; since `estimated_completion` is a dump key
but not a `Job` attribute, the check fails on every call, the `TypeError`
propagates uncaught, and nothing is committed (the flushed account row
rolls back with the session).  `none` means the job-number retry fuel ran
out. -/
def create_job (env : Env) (db : DB) (job_data : JobCreate)
    (created_by : UserModel) (fuel : Nat) :
    Option (Except ApiError (JobCreateResponse × DB)) :=
  match generate_job_number env db fuel 0 with
  | none => none
  | some job_number =>
    let acct :=
      if job_data.create_customer_account && optStrTruthy job_data.customer_email then
        match create_customer_account env db job_data job_number with
        | .ok r => some r
        | .error _ => none
      else none
    let customer_user : Option UserModel :=
      match acct with
      | some (u, _, _) => some u
      | none => none
    let customer_password : Option String :=
      match acct with
      | some (_, p, _) => p
      | none => none
    let db1 : DB :=
      match acct with
      | some (_, _, d) => d
      | none => db
    if (jobCreateDumpKeys ++
        ["job_number", "created_by_id", "customer_user_id"]).all
        (fun k => jobModelAttrs.contains k) then
      let db_job := mkJob env job_data created_by job_number
        (customer_user.map (fun u => u.id))
      let db2 := { db1 with jobs := db1.jobs ++ [db_job] }
      let credentials : Option CustomerCredentials :=
        match customer_user, customer_password with
        | some u, some p => some { email := u.email, password := p, job_number := job_number }
        | _, _ => none
      some (.ok ({ job := job_to_response db2 db_job
                   customer_credentials := credentials
                   message := "Job created successfully" ++
                     (if credentials.isSome then " with customer portal access" else "") },
                 db2))
    else
      some (.error .typeError)

/-! ## Job updates, status changes, assignment (`services.py`) -/

/-- Apply the set fields of a `JobUpdate` to a job row (the
`setattr(db_job, field, value)` loop), including the special case that a
status update to `COMPLETED` also writes `completed_at = func.now()`
(lines 199-204).  Distinct fields, so the loop order is irrelevant. -/
def applyJobUpdate (j : Job) (u : JobUpdate) (now : Nat) : Job :=
  let j := { j with customer_name := u.customer_name.getD j.customer_name }
  let j := { j with customer_phone := u.customer_phone.getD j.customer_phone }
  let j := { j with customer_email := u.customer_email.getD j.customer_email }
  let j := { j with vehicle_name := u.vehicle_name.getD j.vehicle_name }
  let j := { j with motorcycle_numberplate :=
                      u.motorcycle_numberplate.getD j.motorcycle_numberplate }
  let j := { j with problem_description :=
                      u.problem_description.getD j.problem_description }
  let j := { j with diagnosis_notes := u.diagnosis_notes.getD j.diagnosis_notes }
  let j := { j with repair_notes := u.repair_notes.getD j.repair_notes }
  let j := { j with estimated_cost := u.estimated_cost.getD j.estimated_cost }
  let j := { j with actual_cost := u.actual_cost.getD j.actual_cost }
  let j := { j with status := u.status.getD j.status }
  let j := { j with priority := u.priority.getD j.priority }
  let j := { j with assigned_mechanic_id :=
                      u.assigned_mechanic_id.getD j.assigned_mechanic_id }
  if u.status == some JobStatus.COMPLETED then
    { j with completed_at := some now }
  else j

/-- Embeds `JobService.update_job`: 404 if the job is absent, otherwise apply
the set fields (with the completed-timestamp special case) and commit.
No validation of `assigned_mechanic_id` happens on this path. -/
def update_job (db : DB) (job_id : Int) (job_update : JobUpdate) (now : Nat) :
    Except ApiError (Job × DB) :=
  match get_job db job_id with
  | none => .error .notFound
  | some db_job =>
    let j1 := applyJobUpdate db_job job_update now
    .ok (j1, db.replaceJob j1)

/-- Embeds `JobService.update_job_status` (lines 212-237): overwrite
`diagnosis_notes` when the target status is `DIAGNOSING` with truthy
notes, `repair_notes` when `REPAIRING` with truthy notes; set the
status; stamp `completed_at` when the target status is `COMPLETED`. -/
def jobAfterStatusUpdate (db_job : Job) (status_update : JobStatusUpdate)
    (now : Nat) : Job :=
  let j1 :=
    if status_update.status == JobStatus.DIAGNOSING && optStrTruthy status_update.notes then
      { db_job with diagnosis_notes := status_update.notes }
    else if status_update.status == JobStatus.REPAIRING && optStrTruthy status_update.notes then
      { db_job with repair_notes := status_update.notes }
    else db_job
  let j2 := { j1 with status := status_update.status }
  if status_update.status == JobStatus.COMPLETED then
    { j2 with completed_at := some now }
  else j2

/-- The whole of `JobService.update_job_status`: 404 when the job is
absent, otherwise apply `jobAfterStatusUpdate` and commit. -/
def update_job_status (db : DB) (job_id : Int) (status_update : JobStatusUpdate)
    (now : Nat) : Except ApiError (Job × DB) :=
  match get_job db job_id with
  | none => .error .notFound
  | some db_job =>
    .ok (jobAfterStatusUpdate db_job status_update now,
         db.replaceJob (jobAfterStatusUpdate db_job status_update now))

/-- Embeds `JobService.update_job_cost`: set `actual_cost`, overwrite
`repair_notes` when truthy notes accompany the cost. -/
def update_job_cost (db : DB) (job_id : Int) (cost_update : JobCostUpdate) :
    Except ApiError (Job × DB) :=
  match get_job db job_id with
  | none => .error .notFound
  | some db_job =>
    let j1 := { db_job with actual_cost := cost_update.actual_cost }
    let j2 :=
      if optStrTruthy cost_update.repair_notes then
        { j1 with repair_notes := cost_update.repair_notes }
      else j1
    .ok (j2, db.replaceJob j2)

/-- Embeds `JobService.assign_mechanic` (lines 258-284): 404 if the job is
absent; 400 validation error unless a user with the given id and role
`mechanic` exists; otherwise set `assigned_mechanic_id` and commit. -/
def assign_mechanic (db : DB) (job_id : Int) (assignment : JobAssignment) :
    Except ApiError (Job × DB) :=
  match get_job db job_id with
  | none => .error .notFound
  | some db_job =>
    match db.users.find? (fun u =>
        u.id == assignment.assigned_mechanic_id && u.role.name == "mechanic") with
    | none => .error .validationFailed
    | some _ =>
      let j1 := { db_job with assigned_mechanic_id := some assignment.assigned_mechanic_id }
      .ok (j1, db.replaceJob j1)

/-! ## Statistics aggregation (`JobService.get_job_stats`) -/

/-- The visibility filter of `get_job_stats` (lines 290-294): customer
restricted to own jobs; mechanic restricted to jobs assigned to them —
with NO unassigned branch, unlike `get_jobs`; everyone else
unrestricted. -/
def statsVisible (user_role : Option String) (user_id : Option Int) (j : Job) : Bool :=
  if user_role == some "customer" && optIntTruthy user_id then
    j.customer_user_id == user_id
  else if user_role == some "mechanic" && optIntTruthy user_id then
    j.assigned_mechanic_id == user_id
  else
    true

/-- All status values, in declaration order. -/
def allStatuses : List JobStatus :=
  [.CHECKED_IN, .DIAGNOSING, .REPAIRING, .WAITING_FOR_PARTS, .READY, .COMPLETED]

/-- Embeds `query.group_by(Job.status).all()`: the `(status, count)` pairs for
the statuses that have at least one matching row. -/
def groupByStatus (js : List Job) : List (JobStatus × Nat) :=
  (allStatuses.map (fun s => (s, (js.filter (fun j => j.status == s)).length))).filter
    (fun p => p.2 != 0)

/-- A Python string-keyed dict as an association list:
`d[k] = v` updates the entry if `k` is present, otherwise appends it. -/
def dictSet (d : List (String × Nat)) (k : String) (v : Nat) : List (String × Nat) :=
  if d.any (fun p => p.1 == k) then
    d.map (fun p => if p.1 == k then (k, v) else p)
  else d ++ [(k, v)]

/-- Dict lookup. -/
def dictGet (d : List (String × Nat)) (k : String) : Option Nat :=
  (d.find? (fun p => p.1 == k)).map (fun p => p.2)

/-- Embeds `JobService.get_job_stats` (lines 286-311): filter by the stats
visibility rule, group by status, sum the counts into `total_jobs`,
start from the zero-filled lowercase-keyed dict, then execute
`stats_dict[status.value] = count` for each group — `status.value` being
the UPPERCASE enum value, exactly as in the source. -/
def get_job_stats (db : DB) (user_id : Option Int) (user_role : Option String) :
    List (String × Nat) :=
  let visible := db.jobs.filter (statsVisible user_role user_id)
  let stats := groupByStatus visible
  let total := stats.foldl (fun a p => a + p.2) 0
  let stats_dict : List (String × Nat) :=
    [("total_jobs", total), ("diagnosing", 0), ("repairing", 0),
     ("waiting_for_parts", 0), ("ready", 0), ("completed", 0)]
  stats.foldl (fun d p => dictSet d p.1.value p.2) stats_dict

/-! ## Helper lemmas -/

theorem update_stock_ok_facts {db : PartsDB} {pid : Int} {su : SparePartStockUpdate}
    {p1 : SparePart} {db1 : PartsDB} (h : update_stock db pid su = .ok (p1, db1)) :
    0 ≤ p1.quantity_in_stock ∧ db1 = db.replace p1 := by
  unfold update_stock at h
  split at h
  · cases h
  next p hfind =>
    split at h
    · cases h
    next hneg =>
      cases h
      exact ⟨le_of_not_lt hneg, rfl⟩

theorem adjustOrKeep_nonneg {db : PartsDB} (c : Int × SparePartStockUpdate)
    (h : ∀ q ∈ db.parts, 0 ≤ q.quantity_in_stock) :
    ∀ q ∈ (adjustOrKeep db c).parts, 0 ≤ q.quantity_in_stock := by
  intro q hq
  unfold adjustOrKeep at hq
  cases hres : update_stock db c.1 c.2 with
  | error e => rw [hres] at hq; exact h q hq
  | ok r =>
    obtain ⟨p1, db1⟩ := r
    simp only [hres] at hq
    obtain ⟨hq1, hrepl⟩ := update_stock_ok_facts hres
    rw [hrepl] at hq
    simp only [PartsDB.replace, List.mem_map] at hq
    obtain ⟨x, hx, hxq⟩ := hq
    by_cases hid : (x.id == p1.id) = true
    · rw [if_pos hid] at hxq
      rw [← hxq]
      exact hq1
    · rw [if_neg hid] at hxq
      rw [← hxq]
      exact h x hx

theorem foldl_adjustOrKeep_nonneg (ops : List (Int × SparePartStockUpdate))
    (db : PartsDB) (h : ∀ q ∈ db.parts, 0 ≤ q.quantity_in_stock) :
    ∀ q ∈ (ops.foldl adjustOrKeep db).parts, 0 ≤ q.quantity_in_stock := by
  induction ops generalizing db with
  | nil => simpa using h
  | cons c rest ih =>
    simp only [List.foldl_cons]
    exact ih (adjustOrKeep db c) (adjustOrKeep_nonneg c h)

/-- C7: on an existing part, `adjustStock` fails with the
insufficient-stock error exactly when the current quantity plus the delta
would be negative; a failed call leaves the store entirely unchanged; a
successful call stores exactly `current + delta`; and no sequence of
`adjustStock` calls ever drives any quantity below zero. -/
theorem adjustStock_insufficient_and_never_negative
    (db : PartsDB) (pid : Int) (su : SparePartStockUpdate) (p : SparePart)
    (h : get_spare_part db pid = some p) :
    (update_stock db pid su = .error .insufficientStock ↔
      p.quantity_in_stock + su.quantity_change < 0)
    ∧ (∀ e, update_stock db pid su = .error e → adjustOrKeep db (pid, su) = db)
    ∧ (∀ p1 db1, update_stock db pid su = .ok (p1, db1) →
        p1.quantity_in_stock = p.quantity_in_stock + su.quantity_change
        ∧ db1 = db.replace p1)
    ∧ (∀ ops : List (Int × SparePartStockUpdate),
        (∀ q ∈ db.parts, 0 ≤ q.quantity_in_stock) →
        ∀ q ∈ (ops.foldl adjustOrKeep db).parts, 0 ≤ q.quantity_in_stock) := by
  refine ⟨?_, ?_, ?_, ?_⟩
  · unfold update_stock
    rw [h]
    by_cases hneg : p.quantity_in_stock + su.quantity_change < 0 <;> simp [hneg]
  · intro e he
    unfold adjustOrKeep
    simp [he]
  · intro p1 db1 hok
    unfold update_stock at hok
    rw [h] at hok
    by_cases hneg : p.quantity_in_stock + su.quantity_change < 0
    · simp [hneg] at hok
    · simp [hneg] at hok
      exact ⟨by rw [← hok.1], by rw [← hok.1, ← hok.2]⟩
  · intro ops hnn
    exact foldl_adjustOrKeep_nonneg ops db hnn

theorem find?_id_replace (l : List SparePart) (pid : Int) (p p1 : SparePart)
    (hid : p1.id = p.id)
    (h : l.find? (fun x => x.id == pid) = some p) :
    (l.map (fun x => if x.id == p1.id then p1 else x)).find?
      (fun x => x.id == pid) = some p1 := by
  have hp : p.id = pid := by
    have := List.find?_some h
    simpa using this
  induction l with
  | nil => simp at h
  | cons a t ih =>
    by_cases ha : a.id = pid
    · rw [List.find?_cons_of_pos _ (by simpa using ha)] at h
      injection h with h
      subst h
      have h1 : (fun x => if x.id == p1.id then p1 else x) a = p1 := by
        simp [hid]
      simp only [List.map_cons, h1]
      exact List.find?_cons_of_pos _ (by simp [hid, hp])
    · rw [List.find?_cons_of_neg _ (by simpa using ha)] at h
      have h2 : (fun x => if x.id == p1.id then p1 else x) a = a := by
        have : (a.id == p1.id) = false := by
          rw [hid, hp]
          simpa using ha
        simp [this]
      simp only [List.map_cons, h2]
      rw [List.find?_cons_of_neg _ (by simpa using ha)]
      exact ih h

/-- C8: for an existing part with nonnegative quantity `q` and any delta
`d` with `q + d >= 0`, adjusting by `+d` and then by `-d` succeeds both
times and restores the quantity to exactly `q`. -/
theorem adjustStock_roundTrip (db : PartsDB) (pid : Int) (p : SparePart)
    (d : Int) (r1 r2 : Option String)
    (h : get_spare_part db pid = some p)
    (h0 : 0 ≤ p.quantity_in_stock)
    (hd : 0 ≤ p.quantity_in_stock + d) :
    ∃ p1 db1 p2 db2,
      update_stock db pid ⟨d, r1⟩ = .ok (p1, db1) ∧
      update_stock db1 pid ⟨-d, r2⟩ = .ok (p2, db2) ∧
      p2.quantity_in_stock = p.quantity_in_stock := by
  have hnd : ¬ (p.quantity_in_stock + d < 0) := not_lt.mpr hd
  have hh : db.parts.find? (fun x => x.id == pid) = some p := h
  have hfind1 : get_spare_part
      (db.replace { p with quantity_in_stock := p.quantity_in_stock + d }) pid =
      some { p with quantity_in_stock := p.quantity_in_stock + d } := by
    show (db.parts.map (fun x =>
      if x.id == ({ p with quantity_in_stock := p.quantity_in_stock + d } : SparePart).id
      then { p with quantity_in_stock := p.quantity_in_stock + d } else x)).find?
        (fun x => x.id == pid) =
      some { p with quantity_in_stock := p.quantity_in_stock + d }
    exact find?_id_replace db.parts pid p _ rfl hh
  have hnd2 : ¬ (p.quantity_in_stock + d + -d < 0) := by omega
  refine ⟨{ p with quantity_in_stock := p.quantity_in_stock + d },
    db.replace { p with quantity_in_stock := p.quantity_in_stock + d },
    { p with quantity_in_stock := p.quantity_in_stock + d + -d },
    (db.replace { p with quantity_in_stock := p.quantity_in_stock + d }).replace
      { p with quantity_in_stock := p.quantity_in_stock + d + -d },
    ?_, ?_, ?_⟩
  · unfold update_stock
    rw [h]
    simp [hnd]
  · unfold update_stock
    rw [hfind1]
    simp [hnd2]
    exact h0
  · show p.quantity_in_stock + d + -d = p.quantity_in_stock
    omega
def examplePart : SparePart :=
  { id := 1, name := "chain", description := none, price := 5,
    quantity_in_stock := 2, sku := none, category := none,
    minimum_stock_level := 1, is_active := true }

/-- A one-part example store. -/
def examplePartsDB : PartsDB := ⟨[examplePart]⟩

/-- Witness for C7 at a concrete store: the part with quantity 2 exists,
and a delta of -5 is rejected with the insufficient-stock error. -/
theorem adjustStock_insufficient_and_never_negative_witness :
    get_spare_part examplePartsDB 1 = some examplePart
    ∧ (update_stock examplePartsDB 1 ⟨-5, none⟩ = .error .insufficientStock ↔
        examplePart.quantity_in_stock + (-5) < 0) := by
  constructor
  · rfl
  · exact (adjustStock_insufficient_and_never_negative examplePartsDB 1 ⟨-5, none⟩
      examplePart rfl).1

/-- Witness for C8: on the one-part store (quantity 2), +3 then -3
succeeds and restores the quantity. -/
theorem adjustStock_roundTrip_witness :
    get_spare_part examplePartsDB 1 = some examplePart
    ∧ (0 : Int) ≤ examplePart.quantity_in_stock
    ∧ (0 : Int) ≤ examplePart.quantity_in_stock + 3
    ∧ ∃ p1 db1 p2 db2,
        update_stock examplePartsDB 1 ⟨3, none⟩ = .ok (p1, db1) ∧
        update_stock db1 1 ⟨-3, none⟩ = .ok (p2, db2) ∧
        p2.quantity_in_stock = examplePart.quantity_in_stock :=
  ⟨rfl, by decide, by decide,
   adjustStock_roundTrip examplePartsDB 1 examplePart 3 none none rfl
     (by decide) (by decide)⟩

/-! ## Example rows used by witnesses and counterexamples -/

/-- The admin role row. -/
def roleAdmin : Role := ⟨1, "admin"⟩

/-- The mechanic role row. -/
def roleMechanic : Role := ⟨2, "mechanic"⟩

/-- The customer role row. -/
def roleCustomer : Role := ⟨3, "customer"⟩

/-- An admin user. -/
def userAdmin : UserModel := ⟨1, "Alice", "alice@shop.com", "h1", roleAdmin⟩

/-- A mechanic user. -/
def userMechanic : UserModel := ⟨2, "Bob", "bob@shop.com", "h2", roleMechanic⟩

/-- A customer user. -/
def userCustomer : UserModel := ⟨3, "Carol", "carol@mail.com", "h3", roleCustomer⟩

/-- A freshly created job for the customer, unassigned. -/
def exampleJob : Job :=
  { id := 1, job_number := "JOB-123456", customer_name := "Carol",
    customer_phone := "0700111222", customer_email := some "carol@mail.com",
    vehicle_name := "Bajaj Boxer", motorcycle_numberplate := "UAX 123A",
    problem_description := "engine noise", diagnosis_notes := none,
    repair_notes := none, estimated_cost := 10, actual_cost := 0,
    status := .DIAGNOSING, priority := 1, created_at := 1, updated_at := 1,
    completed_at := none, assigned_mechanic_id := none, created_by_id := 1,
    customer_user_id := some 3 }

/-- A store with the three roles, three users, and one job. -/
def exampleDB : DB :=
  ⟨[roleAdmin, roleMechanic, roleCustomer],
   [userAdmin, userMechanic, userCustomer],
   [exampleJob]⟩

/-! ## Operation equations (helpers shared by the claim theorems) -/

theorem update_job_status_eq {db : DB} {jid : Int} {j0 : Job}
    (su : JobStatusUpdate) (now : Nat) (h : get_job db jid = some j0) :
    update_job_status db jid su now =
      .ok (jobAfterStatusUpdate j0 su now,
           db.replaceJob (jobAfterStatusUpdate j0 su now)) := by
  unfold update_job_status
  rw [h]

theorem update_job_eq {db : DB} {jid : Int} {j0 : Job}
    (u : JobUpdate) (now : Nat) (h : get_job db jid = some j0) :
    update_job db jid u now =
      .ok (applyJobUpdate j0 u now, db.replaceJob (applyJobUpdate j0 u now)) := by
  unfold update_job
  rw [h]

/-- C9: on an existing job, `updateJobStatus` commits exactly
`jobAfterStatusUpdate`; truthy notes with target `DIAGNOSING` overwrite
`diagnosis_notes`, truthy notes with target `REPAIRING` overwrite
`repair_notes`, any other combination leaves both notes fields
untouched; the status is always set; `completed_at` is stamped exactly
when the target status is `COMPLETED`; and every other field of the job
is unchanged. -/
theorem updateJobStatus_notes_frame (db : DB) (jid : Int) (j0 : Job)
    (su : JobStatusUpdate) (now : Nat) (h : get_job db jid = some j0) :
    update_job_status db jid su now =
      .ok (jobAfterStatusUpdate j0 su now,
           db.replaceJob (jobAfterStatusUpdate j0 su now))
    ∧ (jobAfterStatusUpdate j0 su now).status = su.status
    ∧ (su.status = .DIAGNOSING → optStrTruthy su.notes = true →
        (jobAfterStatusUpdate j0 su now).diagnosis_notes = su.notes)
    ∧ (¬ (su.status = .DIAGNOSING ∧ optStrTruthy su.notes = true) →
        (jobAfterStatusUpdate j0 su now).diagnosis_notes = j0.diagnosis_notes)
    ∧ (su.status = .REPAIRING → optStrTruthy su.notes = true →
        (jobAfterStatusUpdate j0 su now).repair_notes = su.notes)
    ∧ (¬ (su.status = .REPAIRING ∧ optStrTruthy su.notes = true) →
        (jobAfterStatusUpdate j0 su now).repair_notes = j0.repair_notes)
    ∧ (su.status = .COMPLETED →
        (jobAfterStatusUpdate j0 su now).completed_at = some now)
    ∧ (su.status ≠ .COMPLETED →
        (jobAfterStatusUpdate j0 su now).completed_at = j0.completed_at)
    ∧ (jobAfterStatusUpdate j0 su now).id = j0.id
    ∧ (jobAfterStatusUpdate j0 su now).job_number = j0.job_number
    ∧ (jobAfterStatusUpdate j0 su now).customer_name = j0.customer_name
    ∧ (jobAfterStatusUpdate j0 su now).customer_phone = j0.customer_phone
    ∧ (jobAfterStatusUpdate j0 su now).customer_email = j0.customer_email
    ∧ (jobAfterStatusUpdate j0 su now).vehicle_name = j0.vehicle_name
    ∧ (jobAfterStatusUpdate j0 su now).motorcycle_numberplate
        = j0.motorcycle_numberplate
    ∧ (jobAfterStatusUpdate j0 su now).problem_description
        = j0.problem_description
    ∧ (jobAfterStatusUpdate j0 su now).estimated_cost = j0.estimated_cost
    ∧ (jobAfterStatusUpdate j0 su now).actual_cost = j0.actual_cost
    ∧ (jobAfterStatusUpdate j0 su now).priority = j0.priority
    ∧ (jobAfterStatusUpdate j0 su now).created_at = j0.created_at
    ∧ (jobAfterStatusUpdate j0 su now).updated_at = j0.updated_at
    ∧ (jobAfterStatusUpdate j0 su now).assigned_mechanic_id
        = j0.assigned_mechanic_id
    ∧ (jobAfterStatusUpdate j0 su now).created_by_id = j0.created_by_id
    ∧ (jobAfterStatusUpdate j0 su now).customer_user_id = j0.customer_user_id := by
  refine ⟨update_job_status_eq su now h, ?_⟩
  unfold jobAfterStatusUpdate
  by_cases hd : su.status = JobStatus.DIAGNOSING ∧ optStrTruthy su.notes = true <;>
    by_cases hr : su.status = JobStatus.REPAIRING ∧ optStrTruthy su.notes = true <;>
    by_cases hc : su.status = JobStatus.COMPLETED <;>
    (try simp_all) <;> (try (split_ifs <;> simp_all))

/-- Witness for C9: updating the example job to `REPAIRING` with notes
"swap clutch" overwrites `repair_notes` and leaves `diagnosis_notes`
untouched. -/
theorem updateJobStatus_notes_frame_witness :
    get_job exampleDB 1 = some exampleJob
    ∧ (jobAfterStatusUpdate exampleJob ⟨.REPAIRING, some "swap clutch"⟩ 7).repair_notes
        = some "swap clutch"
    ∧ (jobAfterStatusUpdate exampleJob ⟨.REPAIRING, some "swap clutch"⟩ 7).diagnosis_notes
        = exampleJob.diagnosis_notes := by
  have hmain := updateJobStatus_notes_frame exampleDB 1 exampleJob
    ⟨.REPAIRING, some "swap clutch"⟩ 7 rfl
  refine ⟨rfl, ?_, ?_⟩
  · exact hmain.2.2.2.2.1 rfl (by decide)
  · exact hmain.2.2.2.1 (by simp)

/-- C6: `completed_at` becomes non-null exactly when an operation sets
the status to `COMPLETED`, and is never cleared: a status update stamps
it iff the target is `COMPLETED` and otherwise leaves it unchanged; a
field update stamps it iff the update sets status `COMPLETED` and
otherwise leaves it unchanged; cost updates and mechanic assignment
never touch it; and a freshly created job starts with `completed_at =
none` and a non-`COMPLETED` status.  In particular a non-null
`completed_at` stays non-null under every operation. -/
theorem completedAt_set_on_completion_and_kept (db : DB) (jid : Int) (j0 : Job)
    (su : JobStatusUpdate) (u : JobUpdate) (cu : JobCostUpdate)
    (asg : JobAssignment) (now : Nat) (h : get_job db jid = some j0) :
    (∀ j1 db1, update_job_status db jid su now = .ok (j1, db1) →
      j1.completed_at = if su.status = .COMPLETED then some now else j0.completed_at)
    ∧ (∀ j1 db1, update_job db jid u now = .ok (j1, db1) →
      j1.completed_at = if u.status = some .COMPLETED then some now else j0.completed_at)
    ∧ (∀ j1 db1, update_job_cost db jid cu = .ok (j1, db1) →
      j1.completed_at = j0.completed_at)
    ∧ (∀ j1 db1, assign_mechanic db jid asg = .ok (j1, db1) →
      j1.completed_at = j0.completed_at)
    ∧ (∀ env jc cb jn cuid, (mkJob env jc cb jn cuid).completed_at = none
        ∧ (mkJob env jc cb jn cuid).status ≠ .COMPLETED) := by
  refine ⟨?_, ?_, ?_, ?_, ?_⟩
  · intro j1 db1 hok
    rw [update_job_status_eq su now h] at hok
    simp only [Except.ok.injEq, Prod.mk.injEq] at hok
    obtain ⟨hj, -⟩ := hok
    subst hj
    by_cases hc : su.status = JobStatus.COMPLETED <;>
      simp [jobAfterStatusUpdate, hc] <;> split_ifs <;> rfl
  · intro j1 db1 hok
    rw [update_job_eq u now h] at hok
    simp only [Except.ok.injEq, Prod.mk.injEq] at hok
    obtain ⟨hj, -⟩ := hok
    subst hj
    by_cases hu : u.status = some JobStatus.COMPLETED <;>
      simp [applyJobUpdate, hu] <;> split_ifs <;> rfl
  · intro j1 db1 hok
    unfold update_job_cost at hok
    rw [h] at hok
    simp only [Except.ok.injEq, Prod.mk.injEq] at hok
    obtain ⟨hj, -⟩ := hok
    subst hj
    split_ifs <;> rfl
  · intro j1 db1 hok
    unfold assign_mechanic at hok
    rw [h] at hok
    cases hfind : db.users.find? (fun v =>
        v.id == asg.assigned_mechanic_id && v.role.name == "mechanic") with
    | none => rw [hfind] at hok; cases hok
    | some m =>
      rw [hfind] at hok
      simp only [Except.ok.injEq, Prod.mk.injEq] at hok
      obtain ⟨hj, -⟩ := hok
      subst hj
      rfl
  · intro env jc cb jn cuid
    exact ⟨rfl, by simp [mkJob]⟩

/-- Witness for C6: completing the example job stamps `completed_at`. -/
theorem completedAt_set_on_completion_and_kept_witness :
    get_job exampleDB 1 = some exampleJob
    ∧ (∀ j1 db1, update_job_status exampleDB 1 ⟨.COMPLETED, none⟩ 9 = .ok (j1, db1) →
        j1.completed_at =
          if JobStatus.COMPLETED = .COMPLETED then some 9 else exampleJob.completed_at) :=
  ⟨rfl, (completedAt_set_on_completion_and_kept exampleDB 1 exampleJob
    ⟨.COMPLETED, none⟩ {} ⟨0, none⟩ ⟨2⟩ 9 rfl).1⟩

/-! ## The mechanic-link invariant (spec section 3) -/

/-- Does the job's `assigned_mechanic_id`, if set, reference a user whose
role is `mechanic`? -/
def refsMechanic (db : DB) (j : Job) : Bool :=
  match j.assigned_mechanic_id with
  | none => true
  | some i => db.users.any (fun u => u.id == i && u.role.name == "mechanic")

/-- Spec section 3 invariant: every job's `assigned_mechanic_id`, if set,
references a mechanic. -/
def mechanicLinkInvariant (db : DB) : Bool :=
  db.jobs.all (refsMechanic db)

/-- Counterexample to C3 as stated: on the example store (whose only job
is unassigned, so the invariant holds), `updateJob` with
`assigned_mechanic_id = 3` — the id of the customer user — succeeds and
commits a store whose job references a non-mechanic, because
`update_job` applies the field with no role check. -/
theorem updateJob_breaks_mechanicLink_counterexample :
    mechanicLinkInvariant exampleDB = true
    ∧ (update_job exampleDB 1
        ({ assigned_mechanic_id := some (some 3) } : JobUpdate) 5).toOption.map
        (fun p => mechanicLinkInvariant p.2) = some false
    ∧ (userCustomer.id = 3 ∧ userCustomer.role.name = "customer") := by
  refine ⟨rfl, ?_, rfl, rfl⟩
  rfl

/-- C3 amended: `assignMechanic` rejects with a validation error whenever
no user with the requested id carries role `mechanic`, and a successful
`assignMechanic` preserves the mechanic-link invariant — but the
invariant is NOT maintained by `updateJob`, which writes
`assigned_mechanic_id` unchecked (see the counterexample). -/
theorem assignMechanic_validates_and_preserves (db : DB) (jid : Int)
    (asg : JobAssignment) :
    ((∀ u ∈ db.users, ¬ (u.id = asg.assigned_mechanic_id ∧ u.role.name = "mechanic")) →
      ∀ j0, get_job db jid = some j0 →
        assign_mechanic db jid asg = .error .validationFailed)
    ∧ (∀ j1 db1, assign_mechanic db jid asg = .ok (j1, db1) →
        mechanicLinkInvariant db = true → mechanicLinkInvariant db1 = true) := by
  constructor
  · intro hnone j0 hjob
    unfold assign_mechanic
    rw [hjob]
    have hfind : db.users.find? (fun u =>
        u.id == asg.assigned_mechanic_id && u.role.name == "mechanic") = none := by
      rw [List.find?_eq_none]
      intro u hu
      simp only [Bool.and_eq_true, beq_iff_eq, not_and]
      intro h1 h2
      exact hnone u hu ⟨h1, h2⟩
    rw [hfind]
  · intro j1 db1 hok hinv
    unfold assign_mechanic at hok
    cases hjob : get_job db jid with
    | none => rw [hjob] at hok; cases hok
    | some j0 =>
      rw [hjob] at hok
      cases hfind : db.users.find? (fun u =>
          u.id == asg.assigned_mechanic_id && u.role.name == "mechanic") with
      | none => rw [hfind] at hok; cases hok
      | some m =>
        rw [hfind] at hok
        simp only [Except.ok.injEq, Prod.mk.injEq] at hok
        obtain ⟨hj, hdb⟩ := hok
        subst hj
        subst hdb
        have hm := List.find?_some hfind
        have hmem : m ∈ db.users := List.mem_of_find?_eq_some hfind
        unfold mechanicLinkInvariant at hinv ⊢
        rw [List.all_eq_true] at hinv ⊢
        intro x hx
        unfold DB.replaceJob at hx
        simp only [List.mem_map] at hx
        obtain ⟨y, hy, rfl⟩ := hx
        by_cases hid : (y.id ==
            ({ j0 with assigned_mechanic_id := some asg.assigned_mechanic_id } : Job).id) = true
        · rw [if_pos hid]
          unfold refsMechanic
          simp only
          rw [List.any_eq_true]
          exact ⟨m, hmem, hm⟩
        · rw [if_neg hid]
          exact hinv y hy

/-- Witness for the amended C3: assigning the nonexistent user 5 is
rejected, and assigning the mechanic (user 2) preserves the invariant. -/
theorem assignMechanic_validates_and_preserves_witness :
    assign_mechanic exampleDB 1 ⟨5⟩ = .error .validationFailed
    ∧ mechanicLinkInvariant
        (exampleDB.replaceJob { exampleJob with assigned_mechanic_id := some 2 }) = true :=
  ⟨(assignMechanic_validates_and_preserves exampleDB 1 ⟨5⟩).1 (by decide) exampleJob rfl,
   (assignMechanic_validates_and_preserves exampleDB 1 ⟨2⟩).2 _ _ rfl rfl⟩

/-! ## Customer link (C4) -/

/-- A concrete environment for creation witnesses: the digit stream is
all zeros, so the first generated number is `JOB-000000`. -/
def exampleEnv : Env :=
  { digits := fun _ => ⟨0, by omega⟩, passwordSeed := "pw12345A",
    hash := fun s => "h:" ++ s, freshUserId := 10, freshJobId := 2,
    now := 5, userPersistFails := false }

/-- A job input whose customer email is the ADMIN user's email. -/
def jcReuse : JobCreate :=
  { customer_name := "Walk In", customer_phone := "0700999888",
    customer_email := some "alice@shop.com", vehicle_name := "TVS",
    motorcycle_numberplate := "UBB 1B", problem_description := "flat tyre",
    estimated_cost := 0, priority := 1, create_customer_account := true }

/-- A job input with a fresh customer email. -/
def jcFresh : JobCreate :=
  { customer_name := "Dave", customer_phone := "0700777666",
    customer_email := some "dave@mail.com", vehicle_name := "Yamaha",
    motorcycle_numberplate := "UCC 2C", problem_description := "no spark",
    estimated_cost := 0, priority := 2, create_customer_account := true }

/-- C4: evaluation of the code at the failing input (status `code_bug`).
The account step finds the ADMIN user by the supplied email and returns
it with no role check — the user the job would have been linked to —
but `create_job` then aborts with the constructor `TypeError`, so no
job row and hence no `customer_user_id` link is ever persisted by the
code; the claimed creation-time link never happens, and the reuse
branch that would establish it does not check for role `customer`. -/
theorem customerLink_never_established_eval :
    create_customer_account exampleEnv exampleDB jcReuse "JOB-000000" =
      .ok (userAdmin, none, exampleDB)
    ∧ userAdmin.role.name = "admin"
    ∧ create_job exampleEnv exampleDB jcReuse userMechanic 1 =
        some (.error .typeError) :=
  ⟨rfl, rfl, rfl⟩

theorem replaceJob_preserves_customerLink {db : DB} {j0 j1 : Job}
    (hmem : j0 ∈ db.jobs) (hid : j1.id = j0.id)
    (hcu : j1.customer_user_id = j0.customer_user_id) :
    ∀ x ∈ (db.replaceJob j1).jobs, ∃ y ∈ db.jobs,
      x.id = y.id ∧ x.customer_user_id = y.customer_user_id := by
  intro x hx
  unfold DB.replaceJob at hx
  simp only [List.mem_map] at hx
  obtain ⟨y, hy, rfl⟩ := hx
  by_cases hcnd : (y.id == j1.id) = true
  · rw [if_pos hcnd]
    exact ⟨j0, hmem, hid, hcu⟩
  · rw [if_neg hcnd]
    exact ⟨y, hy, rfl, rfl⟩

/-- Supporting facts around the customer link: an account freshly minted
by `create_customer_account` carries role `customer`, and no update,
status, cost or assignment operation ever rewrites a job's
`customer_user_id` — the link could only come from creation. -/
theorem customerLink_minted_role_and_set_only_at_creation
    (env : Env) (db : DB) (jc : JobCreate) (jn : String) (jid : Int)
    (su : JobStatusUpdate) (u : JobUpdate) (cu : JobCostUpdate)
    (asg : JobAssignment) (now : Nat) :
    (∀ usr pw db1, create_customer_account env db jc jn = .ok (usr, some pw, db1) →
        usr.role.name = "customer")
    ∧ (∀ j1 db1, update_job db jid u now = .ok (j1, db1) →
        ∀ x ∈ db1.jobs, ∃ y ∈ db.jobs,
          x.id = y.id ∧ x.customer_user_id = y.customer_user_id)
    ∧ (∀ j1 db1, update_job_status db jid su now = .ok (j1, db1) →
        ∀ x ∈ db1.jobs, ∃ y ∈ db.jobs,
          x.id = y.id ∧ x.customer_user_id = y.customer_user_id)
    ∧ (∀ j1 db1, update_job_cost db jid cu = .ok (j1, db1) →
        ∀ x ∈ db1.jobs, ∃ y ∈ db.jobs,
          x.id = y.id ∧ x.customer_user_id = y.customer_user_id)
    ∧ (∀ j1 db1, assign_mechanic db jid asg = .ok (j1, db1) →
        ∀ x ∈ db1.jobs, ∃ y ∈ db.jobs,
          x.id = y.id ∧ x.customer_user_id = y.customer_user_id) := by
  refine ⟨?_, ?_, ?_, ?_, ?_⟩
  · intro usr pw db1 hok
    unfold create_customer_account at hok
    cases hex : (if optStrTruthy jc.customer_email then
        db.users.find? (fun v => some v.email == jc.customer_email) else none) with
    | some v =>
      rw [hex] at hok
      dsimp only at hok
      simp only [Except.ok.injEq, Prod.mk.injEq] at hok
      exact absurd hok.2.1.symm (by simp)
    | none =>
      rw [hex] at hok
      dsimp only at hok
      cases hrole : db.roles.find? (fun r => r.name == "customer") with
      | none => rw [hrole] at hok; dsimp only at hok; cases hok
      | some r =>
        rw [hrole] at hok
        dsimp only at hok
        by_cases hpf : env.userPersistFails = true
        · rw [if_pos hpf] at hok; cases hok
        · rw [if_neg hpf] at hok
          simp only [Except.ok.injEq, Prod.mk.injEq] at hok
          obtain ⟨husr, -⟩ := hok
          subst husr
          have hr := List.find?_some hrole
          simpa using hr
  · intro j1 db1 hok
    cases hjob : get_job db jid with
    | none => unfold update_job at hok; rw [hjob] at hok; cases hok
    | some j0 =>
      rw [update_job_eq u now hjob] at hok
      simp only [Except.ok.injEq, Prod.mk.injEq] at hok
      obtain ⟨hj, hdb⟩ := hok
      subst hj
      subst hdb
      have hmem : j0 ∈ db.jobs := List.mem_of_find?_eq_some
        (show db.jobs.find? (fun j => j.id == jid) = some j0 from hjob)
      refine replaceJob_preserves_customerLink hmem ?_ ?_ <;>
        (unfold applyJobUpdate; split_ifs <;> rfl)
  · intro j1 db1 hok
    cases hjob : get_job db jid with
    | none => unfold update_job_status at hok; rw [hjob] at hok; cases hok
    | some j0 =>
      rw [update_job_status_eq su now hjob] at hok
      simp only [Except.ok.injEq, Prod.mk.injEq] at hok
      obtain ⟨hj, hdb⟩ := hok
      subst hj
      subst hdb
      have hmem : j0 ∈ db.jobs := List.mem_of_find?_eq_some
        (show db.jobs.find? (fun j => j.id == jid) = some j0 from hjob)
      refine replaceJob_preserves_customerLink hmem ?_ ?_ <;>
        (unfold jobAfterStatusUpdate; split_ifs <;> rfl)
  · intro j1 db1 hok
    cases hjob : get_job db jid with
    | none => unfold update_job_cost at hok; rw [hjob] at hok; cases hok
    | some j0 =>
      unfold update_job_cost at hok
      rw [hjob] at hok
      simp only [Except.ok.injEq, Prod.mk.injEq] at hok
      obtain ⟨hj, hdb⟩ := hok
      subst hj
      subst hdb
      have hmem : j0 ∈ db.jobs := List.mem_of_find?_eq_some
        (show db.jobs.find? (fun j => j.id == jid) = some j0 from hjob)
      refine replaceJob_preserves_customerLink hmem ?_ ?_ <;>
        (split_ifs <;> rfl)
  · intro j1 db1 hok
    cases hjob : get_job db jid with
    | none => unfold assign_mechanic at hok; rw [hjob] at hok; cases hok
    | some j0 =>
      unfold assign_mechanic at hok
      rw [hjob] at hok
      cases hfind : db.users.find? (fun v =>
          v.id == asg.assigned_mechanic_id && v.role.name == "mechanic") with
      | none => rw [hfind] at hok; cases hok
      | some m =>
        rw [hfind] at hok
        simp only [Except.ok.injEq, Prod.mk.injEq] at hok
        obtain ⟨hj, hdb⟩ := hok
        subst hj
        subst hdb
        have hmem : j0 ∈ db.jobs := List.mem_of_find?_eq_some
          (show db.jobs.find? (fun j => j.id == jid) = some j0 from hjob)
        exact replaceJob_preserves_customerLink hmem rfl rfl

/-- Concrete instance of the supporting facts: a freshly minted account
for a new email carries role `customer`, and a status update on the
example store keeps every job's `customer_user_id`. -/
theorem customerLink_minted_role_witness :
    (∀ usr pw db1,
      create_customer_account exampleEnv exampleDB jcFresh "JOB-000000" =
        .ok (usr, some pw, db1) → usr.role.name = "customer")
    ∧ (∀ x ∈ (exampleDB.replaceJob
          (jobAfterStatusUpdate exampleJob ⟨.READY, none⟩ 8)).jobs,
        ∃ y ∈ exampleDB.jobs, x.id = y.id ∧ x.customer_user_id = y.customer_user_id) :=
  ⟨(customerLink_minted_role_and_set_only_at_creation exampleEnv exampleDB jcFresh
      "JOB-000000" 1 ⟨.READY, none⟩ {} ⟨0, none⟩ ⟨2⟩ 8).1,
   (customerLink_minted_role_and_set_only_at_creation exampleEnv exampleDB jcFresh
      "JOB-000000" 1 ⟨.READY, none⟩ {} ⟨0, none⟩ ⟨2⟩ 8).2.2.1 _ _ rfl⟩

/-! ## Creation fallback (C1) -/

/-- A store whose Identity Store has NO `customer` role. -/
def dbNoCustomerRole : DB := ⟨[roleAdmin, roleMechanic], [userAdmin, userMechanic], []⟩

/-- An environment whose user-persistence step hits an unexpected
storage failure (account creation failing "for another reason"). -/
def envPersistFails : Env := { exampleEnv with userPersistFails := true }

/-- Counterexample to C1 as stated.  Leg one: with the `customer` role
missing, `create_customer_account` does raise the configuration error,
but `create_job` does not abort with it — the `except Exception` block
swallows it and the call instead dies later with the constructor
`TypeError`, persisting nothing.  Leg two: with the role present and
account creation failing for another reason (a storage failure), the
job is NOT still created — the same `TypeError` aborts the call. -/
theorem createJob_accountFailure_counterexample :
    create_customer_account exampleEnv dbNoCustomerRole jcFresh "JOB-000000" =
      .error .configError
    ∧ create_job exampleEnv dbNoCustomerRole jcFresh userAdmin 1 =
        some (.error .typeError)
    ∧ create_customer_account envPersistFails exampleDB jcFresh "JOB-000000" =
        .error .internalError
    ∧ create_job envPersistFails exampleDB jcFresh userAdmin 1 =
        some (.error .typeError) :=
  ⟨rfl, rfl, rfl, rfl⟩

/-- C1 amended: customer-account failures — the missing-role
configuration error included — are caught uniformly by `createJob` and
never themselves abort the call; instead EVERY `createJob` call whose
number generation succeeds, account failure or not, aborts with the
constructor `TypeError` (`estimated_completion` is not a `Job` model
attribute), and no job is ever persisted. -/
theorem createJob_always_aborts_typeError (env : Env) (db : DB)
    (jc : JobCreate) (cb : UserModel) (fuel : Nat) (jn : String)
    (hjn : generate_job_number env db fuel 0 = some jn) :
    create_job env db jc cb fuel = some (.error .typeError) := by
  unfold create_job
  rw [hjn]
  dsimp only
  rw [if_neg (by decide)]

/-- Witness for the amended C1: the concrete missing-role run aborts
with the `TypeError`. -/
theorem createJob_always_aborts_typeError_witness :
    create_job exampleEnv dbNoCustomerRole jcFresh userAdmin 1 =
      some (.error .typeError) :=
  createJob_always_aborts_typeError exampleEnv dbNoCustomerRole jcFresh userAdmin 1
    "JOB-000000" rfl

/-! ## Job-number format and uniqueness (C10) -/

/-- The `JOB-######` format: ten characters, the literal `JOB-`, then six
decimal digits. -/
def isJobNumberFormat (s : String) : Bool :=
  (s.toList.length == 10) &&
  (s.toList.take 4 == "JOB-".toList) &&
  (s.toList.drop 4).all (fun c => c.isDigit)

theorem digitChar_isDigit (d : Fin 10) : (digitChar d).isDigit = true := by
  revert d
  decide

theorem jobNumber_format_aux (env : Env) (k : Nat) :
    isJobNumberFormat ("JOB-" ++ randomSuffix env k) = true := by
  have hdata : ("JOB-" ++ randomSuffix env k).toList =
      'J' :: 'O' :: 'B' :: '-' ::
        (List.range 6).map (fun i => digitChar (env.digits (6 * k + i))) := rfl
  unfold isJobNumberFormat
  rw [hdata]
  rw [Bool.and_eq_true, Bool.and_eq_true]
  refine ⟨⟨?_, ?_⟩, ?_⟩
  · simp
  · rfl
  · show ((List.range 6).map (fun i => digitChar (env.digits (6 * k + i)))).all
      (fun c => c.isDigit) = true
    rw [List.all_eq_true]
    intro c hc
    rw [List.mem_map] at hc
    obtain ⟨i, -, rfl⟩ := hc
    exact digitChar_isDigit _

theorem generate_job_number_fresh (env : Env) (db : DB) :
    ∀ fuel k s, generate_job_number env db fuel k = some s →
      isJobNumberFormat s = true ∧ ∀ j ∈ db.jobs, j.job_number ≠ s := by
  intro fuel
  induction fuel with
  | zero => intro k s h; cases h
  | succ n ih =>
    intro k s h
    unfold generate_job_number at h
    dsimp only at h
    by_cases hcol :
        (db.jobs.any (fun j => j.job_number == "JOB-" ++ randomSuffix env k)) = true
    · rw [if_pos hcol] at h
      exact ih (k + 1) s h
    · rw [if_neg hcol] at h
      injection h with h
      subst h
      refine ⟨jobNumber_format_aux env k, ?_⟩
      intro j hj heq
      apply hcol
      rw [List.any_eq_true]
      exact ⟨j, hj, by simp [heq]⟩

theorem create_customer_account_jobs {env : Env} {db : DB} {jc : JobCreate}
    {jn : String} {u : UserModel} {p : Option String} {d : DB}
    (h : create_customer_account env db jc jn = .ok (u, p, d)) : d.jobs = db.jobs := by
  unfold create_customer_account at h
  cases hex : (if optStrTruthy jc.customer_email then
      db.users.find? (fun v => some v.email == jc.customer_email) else none) with
  | some v =>
    rw [hex] at h
    dsimp only at h
    simp only [Except.ok.injEq, Prod.mk.injEq] at h
    rw [← h.2.2]
  | none =>
    rw [hex] at h
    dsimp only at h
    cases hrole : db.roles.find? (fun r => r.name == "customer") with
    | none => rw [hrole] at h; dsimp only at h; cases h
    | some r =>
      rw [hrole] at h
      dsimp only at h
      by_cases hpf : env.userPersistFails = true
      · rw [if_pos hpf] at h; cases h
      · rw [if_neg hpf] at h
        simp only [Except.ok.injEq, Prod.mk.injEq] at h
        rw [← h.2.2]

theorem nodup_append_singleton {α : Type} {l : List α} {a : α}
    (h : l.Nodup) (ha : a ∉ l) : (l ++ [a]).Nodup := by
  simp [List.nodup_append, h, ha]

/-- C10: a generated job number always has the `JOB-` + six digits
format and differs from every job number already in the store at the
time of the check (the loop retries on collision); and no `createJob`
call ever commits a row — every call that gets a number aborts with the
constructor `TypeError` — so the store's job numbers, pairwise distinct
or not, are never extended by an insertion: no two jobs ever come to
share a number through this code.  (The freshness mechanism is proven
substantively; the no-shared-number consequence currently holds
trivially, because `create_job` cannot insert at all.) -/
theorem jobNumber_format_and_uniqueness (env : Env) (db : DB) (jc : JobCreate)
    (cb : UserModel) (fuel k : Nat) (s : String)
    (hgen : generate_job_number env db fuel k = some s) :
    isJobNumberFormat s = true
    ∧ (∀ j ∈ db.jobs, j.job_number ≠ s)
    ∧ (∀ res, create_job env db jc cb fuel = some res →
        res = .error .typeError) := by
  obtain ⟨hfmt, hfresh⟩ := generate_job_number_fresh env db fuel k s hgen
  refine ⟨hfmt, hfresh, ?_⟩
  intro res hres
  unfold create_job at hres
  cases hjn : generate_job_number env db fuel 0 with
  | none => rw [hjn] at hres; cases hres
  | some jn =>
    rw [hjn] at hres
    dsimp only at hres
    rw [if_neg (by decide)] at hres
    injection hres with h
    exact h.symm

/-- Witness for C10: the all-zero digit stream generates `JOB-000000`
against the example store, whose only job number is different. -/
theorem jobNumber_format_and_uniqueness_witness :
    isJobNumberFormat "JOB-000000" = true
    ∧ (∀ j ∈ exampleDB.jobs, j.job_number ≠ "JOB-000000")
    ∧ (∀ res, create_job exampleEnv exampleDB jcFresh userAdmin 1 = some res →
        res = .error .typeError) :=
  jobNumber_format_and_uniqueness exampleEnv exampleDB jcFresh userAdmin 1 0
    "JOB-000000" rfl

/-! ## Role-scoped listing (C2) -/

theorem mem_insertByCreatedDesc {j a : Job} {l : List Job} :
    a ∈ insertByCreatedDesc j l ↔ a = j ∨ a ∈ l := by
  induction l with
  | nil => simp [insertByCreatedDesc]
  | cons h t ih =>
    unfold insertByCreatedDesc
    split_ifs <;> simp_all <;> tauto

theorem mem_sortByCreatedDesc {a : Job} {l : List Job} :
    a ∈ sortByCreatedDesc l ↔ a ∈ l := by
  induction l with
  | nil => simp [sortByCreatedDesc]
  | cons h t ih =>
    unfold sortByCreatedDesc
    rw [mem_insertByCreatedDesc, ih, List.mem_cons]

theorem mem_get_jobs {db : DB} {skip limit : Nat} {st : Option JobStatus}
    {se ph pl : Option String} {uidOpt : Option Int} {role : Option String}
    {r : JobResponseR}
    (h : r ∈ (get_jobs db skip limit st se ph pl uidOpt role).1) :
    ∃ j, j ∈ db.jobs ∧ roleVisible role uidOpt j = true ∧ r = job_to_response db j := by
  unfold get_jobs at h
  dsimp only at h
  rw [List.mem_map] at h
  obtain ⟨j, hj, rfl⟩ := h
  have h1 : j ∈ sortByCreatedDesc (db.jobs.filter (fun j =>
      matchesFilters st se ph pl j && roleVisible role uidOpt j)) :=
    List.drop_subset _ _ (List.take_subset _ _ hj)
  rw [mem_sortByCreatedDesc, List.mem_filter, Bool.and_eq_true] at h1
  exact ⟨j, h1.1, h1.2.2, rfl⟩

theorem roleVisible_admin (uid2 : Option Int) (j : Job) :
    roleVisible (some "admin") uid2 j = true := by
  unfold roleVisible
  simp

theorem roleVisible_nobody (j : Job) : roleVisible none none j = true := by
  unfold roleVisible
  simp [optIntTruthy]

/-- C2: for every filter combination and pagination, `listJobs` returns
to a customer only jobs linked to their own id, to a mechanic only jobs
assigned to them or unassigned, and for an admin it applies no
visibility restriction at all (its result coincides with the completely
unrestricted query). -/
theorem listJobs_role_visibility (db : DB) (skip limit : Nat)
    (st : Option JobStatus) (se ph pl : Option String) (uid : Int)
    (h : uid ≠ 0) :
    (∀ r ∈ (get_jobs db skip limit st se ph pl (some uid) (some "customer")).1,
        r.customer_user_id = some uid)
    ∧ (∀ r ∈ (get_jobs db skip limit st se ph pl (some uid) (some "mechanic")).1,
        r.assigned_mechanic_id = some uid ∨ r.assigned_mechanic_id = none)
    ∧ (∀ uid2, get_jobs db skip limit st se ph pl uid2 (some "admin") =
        get_jobs db skip limit st se ph pl none none) := by
  have htruthy : optIntTruthy (some uid) = true := by
    simp [optIntTruthy, h]
  refine ⟨?_, ?_, ?_⟩
  · intro r hr
    obtain ⟨j, hj, hvis, rfl⟩ := mem_get_jobs hr
    unfold roleVisible at hvis
    rw [if_pos (by simp [htruthy])] at hvis
    show j.customer_user_id = some uid
    simpa using hvis
  · intro r hr
    obtain ⟨j, hj, hvis, rfl⟩ := mem_get_jobs hr
    unfold roleVisible at hvis
    rw [if_neg (by simp), if_pos (by simp [htruthy])] at hvis
    show j.assigned_mechanic_id = some uid ∨ j.assigned_mechanic_id = none
    rw [Bool.or_eq_true] at hvis
    rcases hvis with hvis | hvis
    · left; simpa using hvis
    · right; simpa using hvis
  · intro uid2
    unfold get_jobs
    have hfilters : db.jobs.filter (fun j =>
        matchesFilters st se ph pl j && roleVisible (some "admin") uid2 j) =
        db.jobs.filter (fun j =>
          matchesFilters st se ph pl j && roleVisible none none j) := by
      apply List.filter_congr
      intro j hj
      rw [roleVisible_admin, roleVisible_nobody]
    dsimp only
    rw [hfilters]

/-- Witness for C2 at requester id 1 on the example store. -/
theorem listJobs_role_visibility_witness :
    (∀ r ∈ (get_jobs exampleDB 0 100 none none none none (some 1) (some "customer")).1,
        r.customer_user_id = some 1)
    ∧ (∀ r ∈ (get_jobs exampleDB 0 100 none none none none (some 1) (some "mechanic")).1,
        r.assigned_mechanic_id = some 1 ∨ r.assigned_mechanic_id = none)
    ∧ (∀ uid2, get_jobs exampleDB 0 100 none none none none uid2 (some "admin") =
        get_jobs exampleDB 0 100 none none none none none none) :=
  listJobs_role_visibility exampleDB 0 100 none none none none 1 (by decide)

/-! ## Statistics (C5) -/

theorem find?_fst_map_set {l : List (String × Nat)} {k k' : String} {v : Nat}
    (h : (k' == k) = false) :
    (l.map (fun p => if p.1 == k' then (k', v) else p)).find? (fun p => p.1 == k) =
      l.find? (fun p => p.1 == k) := by
  induction l with
  | nil => rfl
  | cons q t ih =>
    by_cases hq : (q.1 == k') = true
    · have hqk : (q.1 == k) = false := by
        rw [beq_iff_eq] at hq
        rw [hq]
        exact h
      simp only [List.map_cons, hq, if_true]
      rw [List.find?_cons_of_neg _ (by simp [h]), List.find?_cons_of_neg _ (by simp [hqk])]
      exact ih
    · simp only [List.map_cons, hq, Bool.false_eq_true, if_false]
      by_cases hqk : (q.1 == k) = true
      · rw [List.find?_cons_of_pos (p := fun x : String × Nat => x.1 == k) _ hqk,
            List.find?_cons_of_pos (p := fun x : String × Nat => x.1 == k) _ hqk]
      · rw [List.find?_cons_of_neg (p := fun x : String × Nat => x.1 == k) _ (by simp_all),
            List.find?_cons_of_neg (p := fun x : String × Nat => x.1 == k) _ (by simp_all)]
        exact ih

theorem dictGet_dictSet_ne {d : List (String × Nat)} {k k' : String} {v : Nat}
    (h : (k' == k) = false) : dictGet (dictSet d k' v) k = dictGet d k := by
  unfold dictSet dictGet
  by_cases hany : (d.any (fun p => p.1 == k')) = true
  · rw [if_pos hany, find?_fst_map_set h]
  · rw [if_neg hany, List.find?_append]
    have : ([(k', v)].find? (fun p => p.1 == k)) = none := by
      simp [h]
    rw [this]
    cases d.find? (fun p => p.1 == k) <;> rfl

theorem dictGet_foldl_sets_ne (stats : List (JobStatus × Nat))
    (d : List (String × Nat)) (k : String)
    (h : ∀ s : JobStatus, (s.value == k) = false) :
    dictGet (stats.foldl (fun d p => dictSet d p.1.value p.2) d) k = dictGet d k := by
  induction stats generalizing d with
  | nil => rfl
  | cons q t ih =>
    simp only [List.foldl_cons]
    rw [ih (dictSet d q.1.value q.2), dictGet_dictSet_ne (h q.1)]

theorem foldl_add_filter_ne_zero (l : List (JobStatus × Nat)) :
    ∀ a : Nat, ((l.filter (fun p => p.2 != 0)).foldl (fun a p => a + p.2) a) =
      l.foldl (fun a p => a + p.2) a := by
  induction l with
  | nil => intro a; rfl
  | cons q t ih =>
    intro a
    rw [List.filter_cons]
    by_cases hq : (q.2 != 0) = true
    · rw [if_pos hq]
      simp only [List.foldl_cons]
      exact ih (a + q.2)
    · rw [if_neg hq]
      have hz : q.2 = 0 := by simpa using hq
      simp only [List.foldl_cons, hz, Nat.add_zero]
      exact ih a

theorem sum_status_counts (js : List Job) :
    ((allStatuses.map (fun s => (s, (js.filter (fun j => j.status == s)).length))).foldl
      (fun a p => a + p.2) 0) = js.length := by
  induction js with
  | nil => rfl
  | cons j t ih =>
    have expand : ∀ l : List Job,
        ((allStatuses.map (fun s => (s, (l.filter (fun j => j.status == s)).length))).foldl
          (fun a p => a + p.2) 0) =
        (l.filter (fun j => j.status == JobStatus.CHECKED_IN)).length +
        (l.filter (fun j => j.status == JobStatus.DIAGNOSING)).length +
        (l.filter (fun j => j.status == JobStatus.REPAIRING)).length +
        (l.filter (fun j => j.status == JobStatus.WAITING_FOR_PARTS)).length +
        (l.filter (fun j => j.status == JobStatus.READY)).length +
        (l.filter (fun j => j.status == JobStatus.COMPLETED)).length := by
      intro l
      simp [allStatuses]
    rw [expand] at ih ⊢
    cases hstat : j.status <;>
      simp_all [List.filter_cons, hstat] <;> omega

theorem total_eq_visible_length (js : List Job) :
    ((groupByStatus js).foldl (fun a p => a + p.2) 0) = js.length := by
  unfold groupByStatus
  rw [foldl_add_filter_ne_zero]
  exact sum_status_counts js

/-- A second job, in repair and assigned to the mechanic (user 2). -/
def jobAssigned : Job :=
  { exampleJob with
    id := 2
    job_number := "JOB-222222"
    assigned_mechanic_id := some 2
    status := .REPAIRING
    created_at := 2 }

/-- A store with one unassigned job and one job assigned to the mechanic. -/
def exampleDB2 : DB :=
  ⟨[roleAdmin, roleMechanic, roleCustomer],
   [userAdmin, userMechanic, userCustomer],
   [exampleJob, jobAssigned]⟩

/-- Counterexample to C5 as stated: for the mechanic (user 2) on
`exampleDB2`, `listJobs` makes BOTH jobs visible (the assigned one and
the unassigned one), yet `getJobStats` reports `total_jobs = 1` — the
stats filter drops unassigned jobs — and, although a `REPAIRING` job is
counted, the fixed-shape `repairing` field stays `0`: the count is
recorded under the uppercase key `REPAIRING` instead, so the total does
not equal the sum of the per-status counts of the record. -/
theorem getJobStats_diverges_counterexample :
    (get_jobs exampleDB2 0 100 none none none none (some 2) (some "mechanic")).2 = 2
    ∧ dictGet (get_job_stats exampleDB2 (some 2) (some "mechanic")) "total_jobs" = some 1
    ∧ dictGet (get_job_stats exampleDB2 (some 2) (some "mechanic")) "diagnosing" = some 0
    ∧ dictGet (get_job_stats exampleDB2 (some 2) (some "mechanic")) "repairing" = some 0
    ∧ dictGet (get_job_stats exampleDB2 (some 2) (some "mechanic")) "waiting_for_parts" = some 0
    ∧ dictGet (get_job_stats exampleDB2 (some 2) (some "mechanic")) "ready" = some 0
    ∧ dictGet (get_job_stats exampleDB2 (some 2) (some "mechanic")) "completed" = some 0
    ∧ dictGet (get_job_stats exampleDB2 (some 2) (some "mechanic")) "REPAIRING" = some 1 :=
  ⟨rfl, rfl, rfl, rfl, rfl, rfl, rfl, rfl⟩

theorem statusValue_ne_fixed_keys (s : JobStatus) :
    (s.value == "total_jobs") = false ∧ (s.value == "diagnosing") = false
    ∧ (s.value == "repairing") = false ∧ (s.value == "waiting_for_parts") = false
    ∧ (s.value == "ready") = false ∧ (s.value == "completed") = false := by
  cases s <;> exact ⟨rfl, rfl, rfl, rfl, rfl, rfl⟩

/-- C5 amended: `getJobStats` restricts a customer to their own jobs and
a mechanic to jobs assigned to them (unassigned jobs are excluded,
unlike `listJobs`), with no restriction for an admin; `total_jobs`
equals the number of jobs visible under THAT filter; and the five
fixed-shape per-status fields of the record always remain zero — the
per-status counts are recorded under the uppercase enum-value keys
instead of the record's lowercase fields. -/
theorem getJobStats_actual_visibility_and_shape (db : DB) (uid : Int)
    (role : Option String) (h : uid ≠ 0) :
    dictGet (get_job_stats db (some uid) role) "total_jobs" =
        some (db.jobs.filter (statsVisible role (some uid))).length
    ∧ dictGet (get_job_stats db (some uid) role) "diagnosing" = some 0
    ∧ dictGet (get_job_stats db (some uid) role) "repairing" = some 0
    ∧ dictGet (get_job_stats db (some uid) role) "waiting_for_parts" = some 0
    ∧ dictGet (get_job_stats db (some uid) role) "ready" = some 0
    ∧ dictGet (get_job_stats db (some uid) role) "completed" = some 0
    ∧ (role = some "mechanic" →
        db.jobs.filter (statsVisible role (some uid)) =
          db.jobs.filter (fun j => j.assigned_mechanic_id == some uid))
    ∧ (role = some "customer" →
        db.jobs.filter (statsVisible role (some uid)) =
          db.jobs.filter (fun j => j.customer_user_id == some uid))
    ∧ (role = some "admin" →
        db.jobs.filter (statsVisible role (some uid)) = db.jobs) := by
  have htruthy : optIntTruthy (some uid) = true := by
    simp [optIntTruthy, h]
  refine ⟨?_, ?_, ?_, ?_, ?_, ?_, ?_, ?_, ?_⟩
  · unfold get_job_stats
    dsimp only
    rw [dictGet_foldl_sets_ne _ _ _ (fun s => (statusValue_ne_fixed_keys s).1)]
    show some ((groupByStatus (db.jobs.filter (statsVisible role (some uid)))).foldl
      (fun a p => a + p.2) 0) = _
    rw [total_eq_visible_length]
  · unfold get_job_stats
    dsimp only
    rw [dictGet_foldl_sets_ne _ _ _ (fun s => (statusValue_ne_fixed_keys s).2.1)]
    rfl
  · unfold get_job_stats
    dsimp only
    rw [dictGet_foldl_sets_ne _ _ _ (fun s => (statusValue_ne_fixed_keys s).2.2.1)]
    rfl
  · unfold get_job_stats
    dsimp only
    rw [dictGet_foldl_sets_ne _ _ _ (fun s => (statusValue_ne_fixed_keys s).2.2.2.1)]
    rfl
  · unfold get_job_stats
    dsimp only
    rw [dictGet_foldl_sets_ne _ _ _ (fun s => (statusValue_ne_fixed_keys s).2.2.2.2.1)]
    rfl
  · unfold get_job_stats
    dsimp only
    rw [dictGet_foldl_sets_ne _ _ _ (fun s => (statusValue_ne_fixed_keys s).2.2.2.2.2)]
    rfl
  · intro hrole
    subst hrole
    apply List.filter_congr
    intro j hj
    unfold statsVisible
    rw [if_neg (by simp), if_pos (by simp [htruthy])]
  · intro hrole
    subst hrole
    apply List.filter_congr
    intro j hj
    unfold statsVisible
    rw [if_pos (by simp [htruthy])]
  · intro hrole
    subst hrole
    have : db.jobs.filter (statsVisible (some "admin") (some uid)) =
        db.jobs.filter (fun j => true) := by
      apply List.filter_congr
      intro j hj
      unfold statsVisible
      rw [if_neg (by simp), if_neg (by simp)]
    rw [this]
    simp

/-- Witness for the amended C5 on `exampleDB2` for the mechanic. -/
theorem getJobStats_actual_visibility_and_shape_witness :
    dictGet (get_job_stats exampleDB2 (some 2) (some "mechanic")) "total_jobs" =
      some (exampleDB2.jobs.filter (statsVisible (some "mechanic") (some 2))).length
    ∧ (exampleDB2.jobs.filter (statsVisible (some "mechanic") (some 2)) =
        exampleDB2.jobs.filter (fun j => j.assigned_mechanic_id == some 2)) :=
  ⟨(getJobStats_actual_visibility_and_shape exampleDB2 2 (some "mechanic") (by decide)).1,
   (getJobStats_actual_visibility_and_shape exampleDB2 2 (some "mechanic")
      (by decide)).2.2.2.2.2.2.1 rfl⟩

end Makanika
